import Mathlib

/-!
Verification of the HomePage view logic of the Glyzier frontend
(src/glyzier-frontend/src/pages/HomePage.jsx).

The file shallowly embeds the three state machines of that view:
the hero carousel hook `useCarousel` (lines 35-79), the feed paginator
`loadMoreFeedProducts` (lines 122-147) together with its state
(lines 91-94), and the initial hero fetch `fetchProducts`
(lines 102-119).  Timers and `setTimeout` callbacks are modelled as
explicit events; the single-threaded event loop makes each callback
atomic, so a state-transition function per callback is a faithful model.
-/

namespace Glyzier

/-- A product as consumed by the view: `pid` (identifier used for the
descending sort), name, description, optional preview image URL, price. -/
structure Product where
  pid : Int
  productname : String
  productdesc : String
  screenshotPreviewUrl : Option String
  price : Int
deriving DecidableEq, Repr

/-- JavaScript `Array.prototype.slice(start, stop)` for the in-range
non-negative indices used by the view: the elements at positions
`start, ..., stop - 1`. -/
def jsSlice (l : List α) (start stop : Nat) : List α :=
  (l.drop start).take (stop - start)

/-- Stable insertion of `p` into a list already sorted descending by
`pid`: `p` goes before the first element whose `pid` does not exceed
`p.pid`, so earlier elements stay before later ties. -/
def insertDesc (p : Product) : List Product → List Product
  | [] => [p]
  | q :: l => if q.pid ≤ p.pid then p :: q :: l else q :: insertDesc p l

/-- `data.sort((a, b) => b.pid - a.pid)` (lines 108 and 128): the stable
sort of the fetched collection, descending by identifier.  JavaScript's
`Array.prototype.sort` is stable, and for the consistent comparator
`b.pid - a.pid` the stable descending order of a list is unique, so the
stable insertion sort below computes exactly its result. -/
def sortDesc : List Product → List Product
  | [] => []
  | p :: l => insertDesc p (sortDesc l)

/-- Non-increasing product identifiers along a list: the order in which
the view presents products. -/
def pidDescending (l : List Product) : Prop :=
  l.Pairwise (fun a b => b.pid ≤ a.pid)

theorem mem_insertDesc {p q : Product} {l : List Product} :
    q ∈ insertDesc p l ↔ q = p ∨ q ∈ l := by
  induction l with
  | nil => simp [insertDesc]
  | cons r l ih =>
    by_cases h : r.pid ≤ p.pid
    · simp only [insertDesc, if_pos h, List.mem_cons]
    · simp only [insertDesc, if_neg h, List.mem_cons, ih]
      tauto

theorem insertDesc_length (p : Product) (l : List Product) :
    (insertDesc p l).length = l.length + 1 := by
  induction l with
  | nil => rfl
  | cons r l ih =>
    by_cases h : r.pid ≤ p.pid
    · simp [insertDesc, if_pos h]
    · simp [insertDesc, if_neg h, ih]

theorem sortDesc_length (data : List Product) :
    (sortDesc data).length = data.length := by
  induction data with
  | nil => rfl
  | cons p l ih => simp [sortDesc, insertDesc_length, ih]

theorem pidDescending_insertDesc {p : Product} {l : List Product}
    (hl : pidDescending l) : pidDescending (insertDesc p l) := by
  induction l with
  | nil => simp [insertDesc, pidDescending]
  | cons r l ih =>
    rw [pidDescending, List.pairwise_cons] at hl
    obtain ⟨hr, hl'⟩ := hl
    by_cases h : r.pid ≤ p.pid
    · simp only [insertDesc, if_pos h]
      rw [pidDescending, List.pairwise_cons]
      refine ⟨?_, ?_⟩
      · intro q hq
        rcases List.mem_cons.mp hq with rfl | hq
        · exact h
        · exact le_trans (hr q hq) h
      · rw [List.pairwise_cons]
        exact ⟨hr, hl'⟩
    · simp only [insertDesc, if_neg h]
      rw [pidDescending, List.pairwise_cons]
      refine ⟨?_, ih hl'⟩
      intro q hq
      rcases mem_insertDesc.mp hq with rfl | hq
      · omega
      · exact hr q hq

theorem sortDesc_sorted (data : List Product) : pidDescending (sortDesc data) := by
  induction data with
  | nil => simp [sortDesc, pidDescending]
  | cons p l ih =>
    simp only [sortDesc]
    exact pidDescending_insertDesc ih

/-! ## Feed paginator (lines 91-94, 122-147) -/

/-- Feed section state (lines 91-94). -/
structure FeedState where
  feedProducts : List Product
  feedPage : Nat
  feedLoading : Bool
  feedHasMore : Bool
deriving DecidableEq, Repr

/-- Initial feed state: `[]`, page `0`, not loading, `hasMore = true`
(lines 91-94). -/
def initFeedState : FeedState :=
  { feedProducts := [], feedPage := 0, feedLoading := false, feedHasMore := true }

/-- `loadMoreFeedProducts` (lines 122-147), successful fetch: the external
call returns `data`.  The guard (line 123) rejects the call while loading
or exhausted; otherwise the collection is sorted descending, the window
`[feedPage * 12, feedPage * 12 + 12)` is sliced, an empty slice marks
exhaustion, a non-empty slice is appended and the page counter advances,
marking exhaustion when the window end reaches the collection length
(line 140); `finally` clears the loading flag. -/
def loadMoreFeedProducts (data : List Product) (s : FeedState) : FeedState :=
  if s.feedLoading || !s.feedHasMore then s
  else
    let sortedData := sortDesc data
    let pageSize := 12
    let startIndex := s.feedPage * pageSize
    let endIndex := startIndex + pageSize
    let pageData := jsSlice sortedData startIndex endIndex
    if pageData.length = 0 then
      { s with feedHasMore := false, feedLoading := false }
    else
      { feedProducts := s.feedProducts ++ pageData
        feedPage := s.feedPage + 1
        feedLoading := false
        feedHasMore := if sortedData.length ≤ endIndex then false else s.feedHasMore }

/-- `loadMoreFeedProducts` when `getAllProducts()` throws (lines 142-146):
the guard is checked as before; past the guard the `catch` only logs and
the `finally` clears the loading flag, every other field untouched. -/
def loadMoreFeedFail (s : FeedState) : FeedState :=
  if s.feedLoading || !s.feedHasMore then s
  else { s with feedLoading := false }

/-- The feed state after `n` successive successful calls of
`loadMoreFeedProducts` over the fixed collection `data`, starting from the
initial state. -/
def feedIter (data : List Product) : Nat → FeedState
  | 0 => initFeedState
  | n + 1 => loadMoreFeedProducts data (feedIter data n)

/-- The intersection-observer callback (lines 151-158): invokes the
paginator only when the sentinel is intersecting and the feed is neither
exhausted nor loading. -/
def observerCallback (isIntersecting : Bool) (data : List Product)
    (s : FeedState) : FeedState :=
  if isIntersecting && s.feedHasMore && !s.feedLoading then
    loadMoreFeedProducts data s
  else s

/-- Feed state after component mount: the mount-time effect
(lines 167-169) invokes `loadMoreFeedProducts` unconditionally once;
afterwards the observer callback fires only if the sentinel is visible. -/
def feedStateAfterMount (data : List Product) (sentinelVisible : Bool) : FeedState :=
  observerCallback sentinelVisible data (loadMoreFeedProducts data initFeedState)

/-- The guard of `loadMoreFeedProducts` (line 123): a call while loading
or exhausted returns the state unchanged. -/
theorem loadMore_guard (data : List Product) (s : FeedState)
    (h : s.feedLoading = true ∨ s.feedHasMore = false) :
    loadMoreFeedProducts data s = s := by
  rcases h with h | h <;> simp [loadMoreFeedProducts, h]

/-- The body of `loadMoreFeedProducts` past the guard, as a case split on
the emptiness of the sliced window. -/
theorem loadMore_eq (data : List Product) (s : FeedState)
    (hld : s.feedLoading = false) (hhm : s.feedHasMore = true) :
    loadMoreFeedProducts data s =
      if (jsSlice (sortDesc data) (s.feedPage * 12) (s.feedPage * 12 + 12)).length = 0 then
        { s with feedHasMore := false, feedLoading := false }
      else
        { feedProducts := s.feedProducts ++
            jsSlice (sortDesc data) (s.feedPage * 12) (s.feedPage * 12 + 12)
          feedPage := s.feedPage + 1
          feedLoading := false
          feedHasMore :=
            if (sortDesc data).length ≤ s.feedPage * 12 + 12 then false
            else s.feedHasMore } := by
  simp [loadMoreFeedProducts, hld, hhm]

/-- Closed form of the paginator iteration: after `n` calls the feed holds
the first `12 * n` elements of the sorted collection (truncated at its
length `M`), the page counter is `min n ⌈M / 12⌉`, the loading flag is
clear, and `hasMore` holds exactly before the first call or while
`12 * n < M`. -/
theorem feedIter_spec (data : List Product) (n : Nat) :
    (feedIter data n).feedProducts = (sortDesc data).take (12 * n)
    ∧ (feedIter data n).feedPage = min n (((sortDesc data).length + 11) / 12)
    ∧ (feedIter data n).feedLoading = false
    ∧ ((feedIter data n).feedHasMore = true ↔
        (n = 0 ∨ 12 * n < (sortDesc data).length)) := by
  induction n with
  | zero => simp [feedIter, initFeedState]
  | succ n ih =>
    obtain ⟨ihP, ihPage, ihLoad, ihMore⟩ := ih
    set l := sortDesc data with hl
    set M := l.length with hM
    have hstep : feedIter data (n + 1) = loadMoreFeedProducts data (feedIter data n) :=
      rfl
    by_cases hmore : (feedIter data n).feedHasMore = true
    · -- the guard passes: not loading, hasMore
      have hn : n = 0 ∨ 12 * n < M := ihMore.mp hmore
      have hpage : (feedIter data n).feedPage = n := by
        rw [ihPage]; omega
      rw [loadMore_eq data _ ihLoad hmore, hpage] at hstep
      have hlen : (jsSlice l (n * 12) (n * 12 + 12)).length = min 12 (M - n * 12) := by
        simp [jsSlice, List.length_take, List.length_drop]
      by_cases hempty : (jsSlice l (n * 12) (n * 12 + 12)).length = 0
      · -- empty slice: only possible when n = 0 and M = 0
        have hn0 : n = 0 ∧ M = 0 := by omega
        rw [if_pos hempty] at hstep
        rw [hstep]
        refine ⟨?_, ?_, rfl, ?_⟩
        · simp only [ihP]
          have : l = [] := List.length_eq_zero.mp (by omega)
          simp [this]
        · simp only [hpage]; omega
        · constructor
          · intro hfalse
            exact absurd hfalse (by simp)
          · intro hcon
            exact absurd hcon (by omega)
      · -- non-empty slice: append the window, advance the page
        have h12 : 12 * n < M := by omega
        rw [if_neg hempty] at hstep
        rw [hstep]
        refine ⟨?_, ?_, rfl, ?_⟩
        · simp only [ihP]
          have h1 : 12 * (n + 1) = 12 * n + 12 := by ring
          rw [h1, List.take_add]
          have h2 : n * 12 = 12 * n := by ring
          simp [jsSlice, h2]
        · simp only []
          omega
        · simp only []
          by_cases hend : M ≤ n * 12 + 12
          · rw [if_pos hend]
            constructor
            · intro hfalse; exact absurd hfalse (by simp)
            · intro hcon; omega
          · rw [if_neg hend, hmore]
            constructor
            · intro _; right; omega
            · intro _; rfl
    · -- hasMore is false: the guard rejects, nothing changes
      have hn : ¬(n = 0 ∨ 12 * n < M) := fun h => hmore (ihMore.mpr h)
      push_neg at hn
      obtain ⟨hn0, hnM⟩ := hn
      rw [loadMore_guard data _ (Or.inr (Bool.not_eq_true _ ▸ Bool.eq_false_iff.mpr hmore))] at hstep
      rw [hstep, ihP, ihPage]
      refine ⟨?_, ?_, ihLoad, ?_⟩
      · rw [List.take_of_length_le (by omega), List.take_of_length_le (by omega)]
      · omega
      · rw [ihMore]
        omega

/-! ## Hero fetch and carousel (lines 35-79, 98-119) -/

/-- Hero / hot-arts section state (lines 85-87). -/
structure HeroState where
  products : List Product
  loading : Bool
  error : Option String
deriving DecidableEq, Repr

/-- Initial hero state (lines 85-87): empty list, loading, no error. -/
def initHeroState : HeroState :=
  { products := [], loading := true, error := none }

/-- `fetchProducts` (lines 102-119), successful fetch returning `data`:
sort descending by `pid`, keep `sortedData.slice(0, 8)`, clear the error,
and clear the loading flag in the `finally` block. -/
def fetchProducts (data : List Product) : HeroState :=
  { products := jsSlice (sortDesc data) 0 8, loading := false, error := none }

/-- `heroSlides = Math.min(products.length, 5)` (line 98). -/
def heroSlides (products : List Product) : Nat :=
  min products.length 5

/-- A slide change scheduled by `setTimeout` inside `useCarousel`: the
functional update the timeout callback will apply to the index. -/
inductive NavTarget where
  | toNext
  | toPrev
  | toIndex (i : Nat)
deriving DecidableEq, Repr

/-- Carousel hook state: `currentIndex` and `isTransitioning`
(lines 36-37), plus the queue of `setTimeout` callbacks already scheduled
but not yet fired (the event loop fires them in FIFO order, all having the
same 300 ms delay). -/
structure CarouselState where
  currentIndex : Nat
  isTransitioning : Bool
  pending : List NavTarget
deriving DecidableEq, Repr

/-- Initial carousel state (lines 36-37): index `0`, not transitioning,
no scheduled callback. -/
def initCarouselState : CarouselState :=
  { currentIndex := 0, isTransitioning := false, pending := [] }

/-- The index update a fired timeout applies (lines 44, 55, 64, 73):
`(prev + 1) % totalSlides`, `(prev - 1 + totalSlides) % totalSlides`
(written over `Nat` as `prev + totalSlides - 1`, equal for
`totalSlides ≥ 1`), or the requested index. -/
def applyTarget (totalSlides idx : Nat) : NavTarget → Nat
  | .toNext => (idx + 1) % totalSlides
  | .toPrev => (idx + totalSlides - 1) % totalSlides
  | .toIndex i => i

/-- `goToNext` (lines 51-58): rejected while transitioning, otherwise sets
the flag and schedules the index update. -/
def goToNext (s : CarouselState) : CarouselState :=
  if s.isTransitioning then s
  else { s with isTransitioning := true, pending := s.pending ++ [.toNext] }

/-- `goToPrev` (lines 60-67). -/
def goToPrev (s : CarouselState) : CarouselState :=
  if s.isTransitioning then s
  else { s with isTransitioning := true, pending := s.pending ++ [.toPrev] }

/-- `goToSlide` (lines 69-76): additionally rejected when the requested
index is the current one. -/
def goToSlide (i : Nat) (s : CarouselState) : CarouselState :=
  if s.isTransitioning || i == s.currentIndex then s
  else { s with isTransitioning := true, pending := s.pending ++ [.toIndex i] }

/-- One firing of the interval registered by the effect at lines 39-49.
The effect returns before registering the interval when
`totalSlides <= 1` (line 40), so no tick ever happens then; when the
interval exists, its callback sets the flag and schedules the update
WITHOUT checking `isTransitioning` (lines 41-47). -/
def timerTick (totalSlides : Nat) (s : CarouselState) : CarouselState :=
  if totalSlides ≤ 1 then s
  else { s with isTransitioning := true, pending := s.pending ++ [.toNext] }

/-- The earliest scheduled `setTimeout` callback fires (lines 43-46,
54-57, 63-66, 72-75): apply the scheduled index update and clear the
transitioning flag. -/
def fireTimeout (totalSlides : Nat) (s : CarouselState) : CarouselState :=
  match s.pending with
  | [] => s
  | t :: rest =>
      { currentIndex := applyTarget totalSlides s.currentIndex t
        isTransitioning := false
        pending := rest }

/-- An event of the carousel state machine. -/
inductive CEvent where
  | reqNext
  | reqPrev
  | reqSlide (i : Nat)
  | tick
  | fire
deriving DecidableEq, Repr

/-- Apply one event. -/
def stepEvent (totalSlides : Nat) (s : CarouselState) : CEvent → CarouselState
  | .reqNext => goToNext s
  | .reqPrev => goToPrev s
  | .reqSlide i => goToSlide i s
  | .tick => timerTick totalSlides s
  | .fire => fireTimeout totalSlides s

/-- Run a sequence of events from the initial carousel state. -/
def runEvents (totalSlides : Nat) (es : List CEvent) : CarouselState :=
  es.foldl (stepEvent totalSlides) initCarouselState

/-- Events the rendered view can actually produce: `goToSlide` is only
invoked from the indicator buttons, whose indices range over
`products.slice(0, 5)` (lines 225-229), hence are below the slide count. -/
def eventOk (totalSlides : Nat) : CEvent → Bool
  | .reqSlide i => decide (i < totalSlides)
  | _ => true

/-- A scheduled update that keeps the index below the slide count once
applied. -/
def targetOk (totalSlides : Nat) : NavTarget → Bool
  | .toIndex i => decide (i < totalSlides)
  | _ => true

/-- Carousel invariant: index in range and every scheduled update
in-range. -/
def carouselInv (totalSlides : Nat) (s : CarouselState) : Prop :=
  s.currentIndex < totalSlides ∧ ∀ t ∈ s.pending, targetOk totalSlides t = true

theorem carouselInv_init (totalSlides : Nat) (h : 1 ≤ totalSlides) :
    carouselInv totalSlides initCarouselState :=
  ⟨h, by simp [initCarouselState]⟩

theorem carouselInv_step (totalSlides : Nat) (s : CarouselState) (e : CEvent)
    (h : 1 ≤ totalSlides) (hok : eventOk totalSlides e = true)
    (hinv : carouselInv totalSlides s) :
    carouselInv totalSlides (stepEvent totalSlides s e) := by
  obtain ⟨hidx, hpend⟩ := hinv
  cases e with
  | reqNext =>
    simp only [stepEvent, goToNext]
    split
    · exact ⟨hidx, hpend⟩
    · refine ⟨hidx, ?_⟩
      intro t ht
      rcases List.mem_append.mp ht with ht | ht
      · exact hpend t ht
      · simp at ht
        simp [ht, targetOk]
  | reqPrev =>
    simp only [stepEvent, goToPrev]
    split
    · exact ⟨hidx, hpend⟩
    · refine ⟨hidx, ?_⟩
      intro t ht
      rcases List.mem_append.mp ht with ht | ht
      · exact hpend t ht
      · simp at ht
        simp [ht, targetOk]
  | reqSlide i =>
    simp only [stepEvent, goToSlide]
    split
    · exact ⟨hidx, hpend⟩
    · refine ⟨hidx, ?_⟩
      intro t ht
      rcases List.mem_append.mp ht with ht | ht
      · exact hpend t ht
      · simp at ht
        simp only [eventOk] at hok
        simp [ht, targetOk, hok]
  | tick =>
    simp only [stepEvent, timerTick]
    split
    · exact ⟨hidx, hpend⟩
    · refine ⟨hidx, ?_⟩
      intro t ht
      rcases List.mem_append.mp ht with ht | ht
      · exact hpend t ht
      · simp at ht
        simp [ht, targetOk]
  | fire =>
    simp only [stepEvent, fireTimeout]
    match hp : s.pending with
    | [] => exact ⟨hidx, hpend⟩
    | t :: rest =>
      refine ⟨?_, ?_⟩
      · cases t with
        | toNext => exact Nat.mod_lt _ h
        | toPrev => exact Nat.mod_lt _ h
        | toIndex i =>
          have := hpend (.toIndex i) (by rw [hp]; exact List.mem_cons_self _ _)
          simpa [targetOk] using this
      · intro u hu
        exact hpend u (by rw [hp]; exact List.mem_cons_of_mem _ hu)

theorem carouselInv_run (totalSlides : Nat) (es : List CEvent)
    (h : 1 ≤ totalSlides) (hok : ∀ e ∈ es, eventOk totalSlides e = true) :
    carouselInv totalSlides (runEvents totalSlides es) := by
  rw [runEvents]
  have : ∀ s, carouselInv totalSlides s →
      carouselInv totalSlides (es.foldl (stepEvent totalSlides) s) := by
    induction es with
    | nil => intro s hs; exact hs
    | cons e es ih =>
      intro s hs
      exact ih (fun e' he' => hok e' (List.mem_cons_of_mem _ he'))
        _ (carouselInv_step totalSlides s e h (hok e (List.mem_cons_self _ _)) hs)
  exact this _ (carouselInv_init totalSlides h)

/-- The carousel state after `N` completed auto-advance intervals: each
interval fires the tick (schedules a transition) and 300 ms later the
timeout commits it. -/
def autoAdvanceRun (totalSlides : Nat) : Nat → CarouselState
  | 0 => initCarouselState
  | n + 1 => fireTimeout totalSlides (timerTick totalSlides (autoAdvanceRun totalSlides n))

theorem autoAdvanceRun_eq (totalSlides : Nat) (h : 1 < totalSlides) (n : Nat) :
    autoAdvanceRun totalSlides n =
      { currentIndex := n % totalSlides, isTransitioning := false, pending := [] } := by
  induction n with
  | zero => simp [autoAdvanceRun, initCarouselState, Nat.mod_eq_of_lt (by omega : 0 < totalSlides)]
  | succ n ih =>
    rw [autoAdvanceRun, ih, timerTick, if_neg (by omega)]
    simp only [fireTimeout, List.nil_append, applyTarget]
    congr 1
    conv_rhs => rw [Nat.add_mod]
    rw [Nat.mod_eq_of_lt h]

/-! ## Concrete sample data for instantiations -/

/-- A sample product used to instantiate theorems at concrete inputs. -/
def sampleProduct : Product :=
  { pid := 1, productname := "Eye in Abstract", productdesc := "abstract", screenshotPreviewUrl := none, price := 40 }

/-- A second sample product. -/
def sampleProduct2 : Product :=
  { pid := 2, productname := "Second Art", productdesc := "second", screenshotPreviewUrl := none, price := 25 }

/-! ## Claims -/

/-- C1, counterexample: for the empty collection (`M = 0`) the
accumulated feed length already equals `M` in the initial state, yet the
has-more flag is still `true` and the next fetch call is not a no-op (it
clears the flag), contradicting the claim that once the accumulated
length equals `M` the flag is false and every further call is a no-op. -/
theorem feed_claim_fails_on_empty_collection :
    initFeedState.feedProducts.length = (sortDesc []).length
    ∧ initFeedState.feedHasMore = true
    ∧ loadMoreFeedProducts [] initFeedState ≠ initFeedState := by
  decide

/-- C1 (amended): for a fixed collection and pageSize 12, the `n`-th state
holds the first `12 * n` items of the descending-sorted collection with
page counter `min n ⌈M / 12⌉`; while `12 * n < M` the next call appends
exactly the next contiguous 12-item window and advances the page counter
by one; once the accumulated length equals `M` and at least one call has
been made the has-more flag is false (for `M = 0` that first call is the
empty-slice probe), and any call made with the flag false is a no-op. -/
theorem feed_successive_calls_append_windows (data : List Product) (n : Nat) :
    (feedIter data n).feedProducts = (sortDesc data).take (12 * n)
    ∧ (feedIter data n).feedPage = min n (((sortDesc data).length + 11) / 12)
    ∧ (12 * n < (sortDesc data).length →
        (feedIter data (n + 1)).feedProducts
          = (feedIter data n).feedProducts ++ jsSlice (sortDesc data) (12 * n) (12 * n + 12)
        ∧ (feedIter data (n + 1)).feedPage = (feedIter data n).feedPage + 1)
    ∧ ((feedIter data n).feedProducts.length = (sortDesc data).length ∧ 1 ≤ n →
        (feedIter data n).feedHasMore = false)
    ∧ ((feedIter data n).feedHasMore = false →
        loadMoreFeedProducts data (feedIter data n) = feedIter data n) := by
  obtain ⟨hP, hPage, hLoad, hMore⟩ := feedIter_spec data n
  obtain ⟨hP1, hPage1, _, _⟩ := feedIter_spec data (n + 1)
  set l := sortDesc data
  set M := l.length
  refine ⟨hP, hPage, ?_, ?_, ?_⟩
  · intro h12
    constructor
    · rw [hP1, hP]
      have h1 : 12 * (n + 1) = 12 * n + 12 := by ring
      rw [h1, List.take_add]
      congr 1
      simp [jsSlice]
    · rw [hPage1, hPage]
      omega
  · intro ⟨hlen, hn⟩
    rw [hP, List.length_take] at hlen
    have : ¬(n = 0 ∨ 12 * n < M) := by omega
    rcases Bool.eq_false_or_eq_true (feedIter data n).feedHasMore with h | h
    · exact absurd (hMore.mp h) this
    · exact h
  · intro h
    exact loadMore_guard data _ (Or.inr h)

/-- C1 witness: with a one-product collection, the first call appends the
window `[0, 12)` and the resulting state is exhausted, so the next call is
a no-op. -/
theorem feed_successive_calls_append_windows_witness :
    12 * 0 < (sortDesc [sampleProduct]).length
    ∧ (feedIter [sampleProduct] (0 + 1)).feedProducts
        = (feedIter [sampleProduct] 0).feedProducts
          ++ jsSlice (sortDesc [sampleProduct]) (12 * 0) (12 * 0 + 12)
    ∧ ((feedIter [sampleProduct] 1).feedProducts.length = (sortDesc [sampleProduct]).length
        ∧ 1 ≤ 1)
    ∧ (feedIter [sampleProduct] 1).feedHasMore = false
    ∧ loadMoreFeedProducts [sampleProduct] (feedIter [sampleProduct] 1)
        = feedIter [sampleProduct] 1 := by
  refine ⟨by decide, ((feed_successive_calls_append_windows [sampleProduct] 0).2.2.1 (by decide)).1,
    by decide, (feed_successive_calls_append_windows [sampleProduct] 1).2.2.2.1 (by decide),
    (feed_successive_calls_append_windows [sampleProduct] 1).2.2.2.2 ?_⟩
  exact (feed_successive_calls_append_windows [sampleProduct] 1).2.2.2.1 (by decide)

/-- C2, counterexample: in the initial reachable state of the view the
product list is empty, so the displayed slide count `min(0, 5)` is `0`,
yet the carousel index is `0`, which is not strictly below the slide
count. -/
theorem carousel_index_bound_cex :
    ¬ (initCarouselState.currentIndex < heroSlides []) := by
  decide

/-- C2 (amended): provided at least one product is displayed (slide count
`min(count, 5) ≥ 1`), every state reachable from the initial carousel
state by carousel operations the view can issue (auto-advance tick, go
next, go previous, go to an indicator index, timeout firing) keeps the
current index strictly below the slide count. -/
theorem carousel_index_bound (products : List Product) (es : List CEvent)
    (h : 1 ≤ heroSlides products)
    (hok : ∀ e ∈ es, eventOk (heroSlides products) e = true) :
    (runEvents (heroSlides products) es).currentIndex < heroSlides products :=
  (carouselInv_run (heroSlides products) es h hok).1

/-- C2 witness: two products, a navigation to indicator index 1, a fired
timeout, a timer tick and its commit keep the index below the slide
count 2. -/
theorem carousel_index_bound_witness :
    1 ≤ heroSlides [sampleProduct, sampleProduct2]
    ∧ (runEvents (heroSlides [sampleProduct, sampleProduct2])
        [.reqSlide 1, .fire, .tick, .fire]).currentIndex
      < heroSlides [sampleProduct, sampleProduct2] :=
  ⟨by decide, carousel_index_bound [sampleProduct, sampleProduct2]
    [.reqSlide 1, .fire, .tick, .fire] (by decide) (by decide)⟩

/-- C3, counterexample: while a manual transition is in progress
(`isTransitioning = true` right after `goToNext`), the interval callback
is NOT rejected: it mutates the state by scheduling a second slide
update (lines 41-47 have no `isTransitioning` check).  After the first
timeout fires, the flag is already clear while the second scheduled
transition is still in flight — two transitions overlap. -/
theorem autoAdvance_fires_while_transitioning :
    (goToNext initCarouselState).isTransitioning = true
    ∧ timerTick 2 (goToNext initCarouselState) ≠ goToNext initCarouselState
    ∧ (fireTimeout 2 (timerTick 2 (goToNext initCarouselState))).isTransitioning = false
    ∧ (fireTimeout 2 (timerTick 2 (goToNext initCarouselState))).pending ≠ [] := by
  decide

/-- C3 (amended): the three navigation requests `goToNext`, `goToPrev`
and `goToSlide` are rejected as no-ops while a transition is in progress;
the timer-driven auto-advance, however, is not guarded and proceeds even
during a transition. -/
theorem nav_requests_noop_while_transitioning (s : CarouselState) (i : Nat)
    (h : s.isTransitioning = true) :
    goToNext s = s ∧ goToPrev s = s ∧ goToSlide i s = s := by
  refine ⟨?_, ?_, ?_⟩ <;> simp [goToNext, goToPrev, goToSlide, h]

/-- C3 witness: in a transitioning state all three navigation requests
leave the state unchanged. -/
theorem nav_requests_noop_while_transitioning_witness :
    (⟨0, true, [.toNext]⟩ : CarouselState).isTransitioning = true
    ∧ goToNext ⟨0, true, [.toNext]⟩ = ⟨0, true, [.toNext]⟩
    ∧ goToPrev ⟨0, true, [.toNext]⟩ = ⟨0, true, [.toNext]⟩
    ∧ goToSlide 1 ⟨0, true, [.toNext]⟩ = ⟨0, true, [.toNext]⟩ :=
  ⟨rfl, (nav_requests_noop_while_transitioning ⟨0, true, [.toNext]⟩ 1 rfl).1,
    (nav_requests_noop_while_transitioning ⟨0, true, [.toNext]⟩ 1 rfl).2.1,
    (nav_requests_noop_while_transitioning ⟨0, true, [.toNext]⟩ 1 rfl).2.2⟩

/-- C4: a feed fetch invoked while the loading flag is set or the
has-more flag is clear leaves the whole feed state unchanged, whether the
underlying network call would have succeeded or thrown. -/
theorem fetch_noop_when_loading_or_exhausted (data : List Product) (s : FeedState)
    (h : s.feedLoading = true ∨ s.feedHasMore = false) :
    loadMoreFeedProducts data s = s ∧ loadMoreFeedFail s = s := by
  refine ⟨loadMore_guard data s h, ?_⟩
  rcases h with h | h <;> simp [loadMoreFeedFail, h]

/-- C4 witness: a loading state is left untouched by both the successful
and the failing fetch. -/
theorem fetch_noop_when_loading_or_exhausted_witness :
    ((⟨[], 0, true, true⟩ : FeedState).feedLoading = true
      ∨ (⟨[], 0, true, true⟩ : FeedState).feedHasMore = false)
    ∧ loadMoreFeedProducts [sampleProduct] ⟨[], 0, true, true⟩ = ⟨[], 0, true, true⟩
    ∧ loadMoreFeedFail ⟨[], 0, true, true⟩ = ⟨[], 0, true, true⟩ :=
  ⟨Or.inl rfl,
    (fetch_noop_when_loading_or_exhausted [sampleProduct] ⟨[], 0, true, true⟩ (Or.inl rfl)).1,
    (fetch_noop_when_loading_or_exhausted [sampleProduct] ⟨[], 0, true, true⟩ (Or.inl rfl)).2⟩

/-- C5: when the external product call throws during a feed fetch that
passed the guard, the operation clears the loading flag and leaves the
accumulated list, the page counter and the has-more flag unchanged, so
the fetch can be retried from the same state. -/
theorem fetch_failure_clears_loading_preserves_rest (s : FeedState)
    (hld : s.feedLoading = false) (hhm : s.feedHasMore = true) :
    (loadMoreFeedFail s).feedLoading = false
    ∧ (loadMoreFeedFail s).feedProducts = s.feedProducts
    ∧ (loadMoreFeedFail s).feedPage = s.feedPage
    ∧ (loadMoreFeedFail s).feedHasMore = s.feedHasMore := by
  simp [loadMoreFeedFail, hld, hhm]

/-- C5 witness: a concrete idle state with one accumulated page keeps its
list, page counter and has-more flag across a failed fetch. -/
theorem fetch_failure_clears_loading_preserves_rest_witness :
    (loadMoreFeedFail ⟨[sampleProduct], 1, false, true⟩).feedLoading = false
    ∧ (loadMoreFeedFail ⟨[sampleProduct], 1, false, true⟩).feedProducts = [sampleProduct]
    ∧ (loadMoreFeedFail ⟨[sampleProduct], 1, false, true⟩).feedPage = 1
    ∧ (loadMoreFeedFail ⟨[sampleProduct], 1, false, true⟩).feedHasMore = true :=
  ⟨(fetch_failure_clears_loading_preserves_rest ⟨[sampleProduct], 1, false, true⟩ rfl rfl).1,
    (fetch_failure_clears_loading_preserves_rest ⟨[sampleProduct], 1, false, true⟩ rfl rfl).2.1,
    (fetch_failure_clears_loading_preserves_rest ⟨[sampleProduct], 1, false, true⟩ rfl rfl).2.2.1,
    (fetch_failure_clears_loading_preserves_rest ⟨[sampleProduct], 1, false, true⟩ rfl rfl).2.2.2⟩

/-- C6: from a quiescent state (no transition in progress), a completed
go-next yields `(i + 1) % slideCount` and a completed go-previous yields
`(i - 1 + slideCount) % slideCount` (written over `Nat` as
`i + slideCount - 1`, equal to the JS integer value for
`slideCount ≥ 1`); and for every slide count `> 1`, after `N` completed
auto-advance intervals the index equals `N % slideCount`. -/
theorem carousel_wrap_modulo (totalSlides : Nat) (s : CarouselState) (N : Nat)
    (h1 : 1 ≤ totalSlides) (hs : s.isTransitioning = false) (hp : s.pending = []) :
    (fireTimeout totalSlides (goToNext s)).currentIndex
      = (s.currentIndex + 1) % totalSlides
    ∧ (fireTimeout totalSlides (goToPrev s)).currentIndex
      = (s.currentIndex + totalSlides - 1) % totalSlides
    ∧ (1 < totalSlides →
        (autoAdvanceRun totalSlides N).currentIndex = N % totalSlides) := by
  have hmono : 0 < totalSlides := h1
  refine ⟨?_, ?_, ?_⟩
  · simp [goToNext, hs, hp, fireTimeout, applyTarget]
  · simp [goToPrev, hs, hp, fireTimeout, applyTarget]
  · intro h2
    rw [autoAdvanceRun_eq totalSlides h2 N]

/-- C6 witness: in a three-slide carousel at index 2, go-next wraps to 0,
go-previous moves to 1, and five auto-advance intervals land on
`5 % 3 = 2`. -/
theorem carousel_wrap_modulo_witness :
    (fireTimeout 3 (goToNext ⟨2, false, []⟩)).currentIndex = (2 + 1) % 3
    ∧ (fireTimeout 3 (goToPrev ⟨2, false, []⟩)).currentIndex = (2 + 3 - 1) % 3
    ∧ (autoAdvanceRun 3 5).currentIndex = 5 % 3 :=
  ⟨(carousel_wrap_modulo 3 ⟨2, false, []⟩ 5 (by decide) rfl rfl).1,
    (carousel_wrap_modulo 3 ⟨2, false, []⟩ 5 (by decide) rfl rfl).2.1,
    (carousel_wrap_modulo 3 ⟨2, false, []⟩ 5 (by decide) rfl rfl).2.2 (by decide)⟩

/-- C7: when the slide count is at most 1 the rotation effect returns
before registering the interval, so a timer tick is a no-op, and after any
number of auto-advance intervals the carousel is still in its initial
state with index 0. -/
theorem no_autoAdvance_when_at_most_one_slide (totalSlides N : Nat)
    (h : totalSlides ≤ 1) :
    (∀ s, timerTick totalSlides s = s)
    ∧ autoAdvanceRun totalSlides N = initCarouselState
    ∧ (autoAdvanceRun totalSlides N).currentIndex = 0 := by
  have htick : ∀ s, timerTick totalSlides s = s := fun s => by simp [timerTick, h]
  have hrun : autoAdvanceRun totalSlides N = initCarouselState := by
    induction N with
    | zero => rfl
    | succ n ih => rw [autoAdvanceRun, ih, htick]; rfl
  exact ⟨htick, hrun, by rw [hrun]; rfl⟩

/-- C7 witness: with a single slide, a tick leaves the initial state
unchanged and four intervals leave the index at 0. -/
theorem no_autoAdvance_when_at_most_one_slide_witness :
    timerTick 1 initCarouselState = initCarouselState
    ∧ (autoAdvanceRun 1 4).currentIndex = 0 :=
  ⟨(no_autoAdvance_when_at_most_one_slide 1 4 (by decide)).1 initCarouselState,
    (no_autoAdvance_when_at_most_one_slide 1 4 (by decide)).2.2⟩

/-- C8: whatever the source order of the fetched collection, the products
stored for the hero/hot-list, every 12-item window appended to the feed,
and the accumulated feed list are in descending (non-increasing) order of
product identifier. -/
theorem lists_sorted_descending_by_pid (data : List Product) (k n : Nat) :
    pidDescending (fetchProducts data).products
    ∧ pidDescending (jsSlice (sortDesc data) (k * 12) (k * 12 + 12))
    ∧ pidDescending (feedIter data n).feedProducts := by
  have hsorted := sortDesc_sorted data
  refine ⟨?_, ?_, ?_⟩
  · have hsub : (fetchProducts data).products.Sublist (sortDesc data) := by
      simp only [fetchProducts, jsSlice, List.drop_zero]
      exact List.take_sublist _ _
    exact List.Pairwise.sublist hsub hsorted
  · have hsub : (jsSlice (sortDesc data) (k * 12) (k * 12 + 12)).Sublist (sortDesc data) := by
      simp only [jsSlice]
      exact List.Sublist.trans (List.take_sublist _ _) (List.drop_sublist _ _)
    exact List.Pairwise.sublist hsub hsorted
  · have hP := (feedIter_spec data n).1
    rw [hP]
    exact List.Pairwise.sublist (List.take_sublist _ _) hsorted

/-- C9: a successful initial fetch stores exactly the first
`min(M, 8)` items of the descending-sorted collection (at most 8
products), clears the loading flag and the error, and the slide count is
derived as the minimum of the stored length and 5. -/
theorem hero_holds_first_eight_sorted (data : List Product) :
    (fetchProducts data).products = (sortDesc data).take 8
    ∧ (fetchProducts data).products.length = min data.length 8
    ∧ (fetchProducts data).products.length ≤ 8
    ∧ heroSlides (fetchProducts data).products = min (min data.length 8) 5
    ∧ (fetchProducts data).loading = false
    ∧ (fetchProducts data).error = none := by
  have h8 : (fetchProducts data).products = (sortDesc data).take 8 := by
    simp [fetchProducts, jsSlice]
  have hlen : (fetchProducts data).products.length = min data.length 8 := by
    rw [h8, List.length_take, sortDesc_length]
    omega
  refine ⟨h8, hlen, ?_, ?_, rfl, rfl⟩
  · rw [hlen]; omega
  · rw [heroSlides, hlen]

/-- C10: the mount-time effect requests the first feed page once,
independently of the sentinel: with the sentinel never visible, the feed
state after mount is exactly one paginator call, holding the page-0
window `[0, 12)` of the sorted collection with the loading flag clear. -/
theorem initial_feed_page_loaded_at_mount (data : List Product) :
    feedStateAfterMount data false = feedIter data 1
    ∧ (feedStateAfterMount data false).feedProducts = jsSlice (sortDesc data) 0 12
    ∧ (feedStateAfterMount data false).feedPage = min 1 ((data.length + 11) / 12)
    ∧ (feedStateAfterMount data false).feedLoading = false := by
  have h1 : feedStateAfterMount data false = feedIter data 1 := by
    simp [feedStateAfterMount, observerCallback, feedIter]
  obtain ⟨hP, hPage, hLoad, _⟩ := feedIter_spec data 1
  rw [sortDesc_length] at hPage
  refine ⟨h1, ?_, ?_, ?_⟩
  · rw [h1, hP]
    simp [jsSlice]
  · rw [h1, hPage]
  · rw [h1, hLoad]

end Glyzier
